import Mathlib

/-!
Verification development for the git-monorepo-tools splitter
(shallow embedding of src/split.rs).

Pure helpers (include_var_valid, generate_filter_arg_vec,
try_get_repo_name_from_remote_repo and friends) are translated directly.
The Runner pipeline stages are embedded as functions from a Runner state
(plus oracle parameters standing for the external collaborators: the
process executor, git helper results, the environment) to an outcome
(normal return, panic, or process exit) paired with the list of observable
effects (printed lines, subprocess invocations, git porcelain calls).
-/

set_option maxRecDepth 4000

/-! ## Rust string-operation semantics on lists of characters -/

/-- Rust char::is_whitespace: the Unicode White_Space code points. -/
def rustIsWhitespace (c : Char) : Bool :=
  c.val = 0x09 || c.val = 0x0a || c.val = 0x0b || c.val = 0x0c || c.val = 0x0d ||
  c.val = 0x20 || c.val = 0x85 || c.val = 0xa0 || c.val = 0x1680 ||
  (0x2000 ≤ c.val && c.val ≤ 0x200a) ||
  c.val = 0x2028 || c.val = 0x2029 || c.val = 0x202f || c.val = 0x205f ||
  c.val = 0x3000

/-- Rust str::trim_end: drop trailing whitespace. -/
def trimEndChars (s : List Char) : List Char :=
  (s.reverse.dropWhile rustIsWhitespace).reverse

/-- Rust s.rsplit(sep).next(): the segment after the last occurrence of
sep, or the whole string when sep does not occur. -/
def afterLastSlashChars (slash : Char) (s : List Char) : List Char :=
  (s.reverse.takeWhile (fun c => c ≠ slash)).reverse

/-- Rust s.split(sep).next() for sep = dot: the segment before the first
dot, or the whole string when there is no dot. -/
def beforeFirstDotChars (s : List Char) : List Char :=
  s.takeWhile (fun c => c ≠ '.')

/-- Scanner for replaceChars. Each step consumes at least one character of
s, so fuel = s.length makes the fuel-out branch unreachable. -/
def replaceCharsAux (pat repl : List Char) : Nat → List Char → List Char
  | _, [] => []
  | 0, s => s
  | fuel + 1, c :: rest =>
    if pat.isPrefixOf (c :: rest) && !pat.isEmpty then
      repl ++ replaceCharsAux pat repl fuel (rest.drop (pat.length - 1))
    else
      c :: replaceCharsAux pat repl fuel rest

/-- Rust str::replace: replace every non-overlapping occurrence of pat
(scanning left to right) by repl. -/
def replaceChars (pat repl s : List Char) : List Char :=
  replaceCharsAux pat repl s.length s

/-! ## The same operations lifted to String -/

def strTrimEnd (s : String) : String := ⟨trimEndChars s.data⟩

def strEndsWithChar (s : String) (c : Char) : Bool := s.data.getLast? == some c

/-- Rust String::pop: drop the last character. -/
def strPop (s : String) : String := ⟨s.data.dropLast⟩

def strContainsChar (s : String) (c : Char) : Bool := s.data.contains c

def strStartsWith (s pat : String) : Bool := pat.data.isPrefixOf s.data

def strReplaceAll (s pat repl : String) : String := ⟨replaceChars pat.data repl.data s.data⟩

/-- Rust s.lines().next(): the first line (up to a newline, with one
trailing carriage return stripped); none when the string is empty. -/
def linesNext (s : String) : Option String :=
  match s.data with
  | [] => none
  | l =>
    let line := l.takeWhile (fun c => c ≠ '\n')
    some ⟨if line.getLast? == some '\r' then line.dropLast else line⟩

/-- Rust Vec::join(" "). -/
def joinSpace : List String → String
  | [] => ""
  | [a] => a
  | a :: rest => a ++ " " ++ joinSpace rest

/-! ## Pure helpers of src/split.rs -/

-- fn is_valid_remote_repo(remote_repo: &String) -> bool
def is_valid_remote_repo (remote_repo : String) : Bool :=
  strStartsWith remote_repo "ssh://" ||
  strStartsWith remote_repo "git://" ||
  strStartsWith remote_repo "http://" ||
  strStartsWith remote_repo "https://" ||
  strStartsWith remote_repo "ftp://" ||
  strStartsWith remote_repo "sftp://" ||
  strStartsWith remote_repo "file://" ||
  strStartsWith remote_repo "." ||
  strStartsWith remote_repo "/"

-- fn get_string_after_last_slash(s: String, slash_type: char) -> String
def get_string_after_last_slash (s : String) (slash_type : Char) : String :=
  ⟨afterLastSlashChars slash_type s.data⟩

-- fn get_string_before_first_dot(s: String) -> String
def get_string_before_first_dot (s : String) : String :=
  ⟨beforeFirstDotChars s.data⟩

-- fn try_get_repo_name_with_slash_type(remote_repo: &String, slash_type: char) -> String
def try_get_repo_name_with_slash_type (remote_repo : String) (slash_type : Char) : String :=
  let out0 := strTrimEnd remote_repo
  let out1 := if !(is_valid_remote_repo remote_repo) then "" else out0
  let out2 := if strEndsWithChar out1 slash_type then strPop out1 else out1
  let out3 := if !(strContainsChar out2 slash_type) then "" else out2
  let out4 := get_string_after_last_slash out3 slash_type
  get_string_before_first_dot out4

/-- fn try_get_repo_name_from_remote_repo(remote_repo: String) -> String.
The platform constant MAIN_SEPARATOR is the main_sep parameter; the
panic on failure is modelled as returning none. -/
def try_get_repo_name_from_remote_repo (main_sep : Char) (remote_repo : String) :
    Option String :=
  let slash_type := main_sep
  let next_slash_type := if slash_type = '/' then '\\' else '/'
  let repo_name := try_get_repo_name_with_slash_type remote_repo slash_type
  let repo_name :=
    if repo_name = "" then try_get_repo_name_with_slash_type remote_repo next_slash_type
    else repo_name
  if repo_name = "" then none else some repo_name

-- fn include_var_valid(var: &Vec<String>, can_be_single: bool) -> bool
def include_var_valid (var : List String) (can_be_single : Bool) : Bool :=
  let vlen := var.length
  if vlen = 1 ∧ can_be_single = true then true
  else if 1 ≤ vlen ∧ vlen % 2 = 0 then true
  else false

-- fn generate_filter_arg_vec(args, output_branch) -> Vec<&str>
def generate_filter_arg_vec (args : List String) (output_branch : String) : List String :=
  let arg_vec := ["git", "filter-repo"]
  let arg_vec := arg_vec ++ args
  let arg_vec := arg_vec ++ ["--refs"]
  let arg_vec := arg_vec ++ [output_branch]
  arg_vec ++ ["--force"]

/-! ## The Runner pipeline (struct Runner and its stage methods)

External collaborators are modelled as oracle parameters: the process
executor (exec_helpers::execute) is a function from an argument vector to
an execution result, git_helpers results and environment lookups are
passed in as values. Each stage returns an Outcome (normal return, panic,
or direct process exit) together with the ordered list of observable
effects it performed before finishing. -/

/-- Result of one pipeline stage: a normal return of the advanced Runner,
a Rust panic carrying its message, or a direct process exit
(std::process::exit) carrying the exit status. -/
inductive Outcome (α : Type) where
  | ok : α → Outcome α
  | panicked : String → Outcome α
  | exited : Int → Outcome α
deriving DecidableEq

/-- Observable side effects of a stage, in order: printed lines,
subprocess invocations, the working-directory change, and the git
porcelain calls of git_helpers. -/
inductive Effect where
  | print (s : String)
  | exec (args : List String)
  | chdir (path : String)
  | gitMakeOrphanAndCheckout (branch : String)
  | gitRemoveIndexAndFiles
  | gitMergeBranches (branch : String)
  | gitPull (remote : String) (branch : Option String)
deriving DecidableEq

/-- Modelled from the spec: the ProcessExecutor collaborator interface
(exec_helpers is not among the given sources): running an argument vector
yields either an exit status with captured standard output and error text,
or an execution-level error. -/
structure ExecOutput where
  status : Int
  stdout : String
  stderr : String
deriving DecidableEq

/-- Modelled from the spec: result of the ProcessExecutor — Ok(output) or
an execution-level Err (e.g. binary not found), as a plain sum. -/
inductive ExecResult where
  | ok (o : ExecOutput)
  | err (e : String)
deriving DecidableEq

/-- Modelled from the spec: the RepoFileModel (repo_file.rs is not among
the given sources). Only the fields the split.rs code reads are modelled:
the remote repository locator and the optional remote branch, both
optional as the code unwraps them. -/
structure RepoFile where
  remote_repo : Option String
  remote_branch : Option String
deriving DecidableEq

/-- Modelled from the spec: RepoFile::new() — an empty configuration. -/
def RepoFile.new : RepoFile := ⟨none, none⟩

/-- The message of a Rust Option::unwrap() panic on None. -/
def unwrapNoneMsg : String := "called Option::unwrap() on a None value"

/-- struct Runner of src/split.rs. The clap ArgMatches handle is dropped
(it is only read in Runner::new, whose looked-up values are parameters
here); the git2::Repository handle is presence-only (Option Unit);
PathBuf fields are strings. -/
structure Runner where
  repo_file_path : Option String
  current_dir : String
  log_p : String
  dry_run : Bool
  verbose : Bool
  should_rebase : Bool
  should_topbase : Bool
  repo_file : RepoFile
  repo_root_dir : String
  topbase_top_ref : Option String
  repo_original_ref : Option String
  repo : Option Unit
  input_branch : Option String
  output_branch : Option String
  include_arg_str : Option (List String)
  include_as_arg_str : Option (List String)
  exclude_arg_str : Option (List String)
  status : Int
deriving DecidableEq

/-- Runner::new. The parameters are the values Runner::new reads off the
CLI matches (is_present/value_of lookups on the external ArgMatches). -/
def Runner.new (is_dry_run is_verbose is_rebase is_topbase : Bool)
    (output_branch : Option String) (repo_file_path : Option String) : Runner where
  repo_file_path := repo_file_path
  status := 0
  dry_run := is_dry_run
  verbose := is_verbose
  should_rebase := is_rebase
  should_topbase := is_topbase
  repo_file := RepoFile.new
  topbase_top_ref := none
  repo_original_ref := none
  current_dir := ""
  repo := none
  repo_root_dir := ""
  include_arg_str := none
  include_as_arg_str := none
  exclude_arg_str := none
  log_p := if is_dry_run then "   # " else ""
  input_branch := none
  output_branch := output_branch

/-- Runner::save_current_ref. current_ref is the oracle for
git_helpers::get_current_ref on the open repository. -/
def Runner.save_current_ref (r : Runner) (current_ref : Option String) :
    Outcome Runner × List Effect :=
  (.ok { r with repo_original_ref :=
      match r.repo with
      | some _ => current_ref
      | none => none }, [])

/-- Runner::make_and_checkout_orphan_branch. make_orphan_ok and
remove_index_ok are the oracles for the is_ok() of the two git_helpers
calls. -/
def Runner.make_and_checkout_orphan_branch (r : Runner) (orphan_branch : String)
    (make_orphan_ok remove_index_ok : Bool) : Outcome Runner × List Effect :=
  if r.dry_run then
    (.ok r, [.print ("git checkout --orphan " ++ orphan_branch),
             .print "git rm -rf . > /dev/null"])
  else
    match r.repo with
    | some _ =>
      if !make_orphan_ok then
        (.panicked "Failed to checkout orphan branch",
         [.gitMakeOrphanAndCheckout orphan_branch])
      else if !remove_index_ok then
        (.panicked "Failed to remove git indexed files after making orphan",
         [.gitMakeOrphanAndCheckout orphan_branch, .gitRemoveIndexAndFiles])
      else
        (.ok r, [.gitMakeOrphanAndCheckout orphan_branch, .gitRemoveIndexAndFiles] ++
          (if r.verbose then
            [.print (r.log_p ++ "created and checked out orphan branch " ++ orphan_branch)]
          else []))
    | none => (.panicked "Something went horribly wrong!", [])

/-- Runner::safe_to_proceed. exec is the oracle for
exec_helpers::execute; exit_with_message_and_status is inlined as a print
plus a process exit. -/
def Runner.safe_to_proceed (r : Runner) (exec : List String → ExecResult) :
    Outcome Runner × List Effect :=
  let args := ["git", "ls-files", "--modified"]
  match exec args with
  | .err e => (.panicked ("Failed to run ls-files: " ++ e), [.exec args])
  | .ok o =>
    if o.status = 0 then
      if o.stdout ≠ "" then
        (.exited 1,
         [.exec args,
          .print "You have modified changes. Please stash or commit your changes before running this command"])
      else (.ok r, [.exec args])
    else (.panicked ("Failed to run ls-files: " ++ o.stderr), [.exec args])

/-- Runner::populate_empty_branch_with_remote_commits. -/
def Runner.populate_empty_branch_with_remote_commits (r : Runner) :
    Outcome Runner × List Effect :=
  let remote_repo := r.repo_file.remote_repo
  let remote_branch := r.repo_file.remote_branch
  match r.repo with
  | none => (.panicked "Failed to find repo?", [])
  | some _ =>
    match r.dry_run, r.input_branch with
    | true, some branch_name => (.ok r, [.print ("git merge " ++ branch_name)])
    | true, none =>
      match remote_repo with
      | some rr => (.ok r, [.print ("git pull " ++ rr)])
      | none => (.panicked unwrapNoneMsg, [])
    | false, some branch_name =>
      (.ok r, [.print (r.log_p ++ "Merging " ++ branch_name),
               .gitMergeBranches branch_name])
    | false, none =>
      let pulling : Effect := .print (r.log_p ++ "Pulling from " ++
        (remote_repo.getD "?") ++ " " ++ (remote_branch.getD ""))
      match remote_repo with
      | some rr => (.ok r, [pulling, .gitPull rr remote_branch])
      | none => (.panicked unwrapNoneMsg, [pulling])

/-- Runner::rebase. exec is the oracle for exec_helpers::execute. -/
def Runner.rebase (r : Runner) (exec : List String → ExecResult) :
    Outcome Runner × List Effect :=
  match r.repo_original_ref with
  | none => (.ok r, [.print "Failed to get repo original ref. Not going to rebase"])
  | some branch =>
    let upstream_branch := strReplaceAll branch "refs/heads/" ""
    let eff0 : List Effect :=
      if r.verbose then [.print ("rebasing onto " ++ upstream_branch)] else []
    if r.dry_run then
      (.ok r, eff0 ++ [.print ("git rebase " ++ upstream_branch)])
    else
      let args := ["git", "rebase", upstream_branch]
      match exec args with
      | .err e =>
        (.ok { r with status := 1 },
         eff0 ++ [.exec args, .print ("Failed to rebase\n" ++ (if r.verbose then e else ""))])
      | .ok o =>
        if o.status = 0 then (.ok r, eff0 ++ [.exec args])
        else
          match linesNext o.stderr with
          | none => (.panicked unwrapNoneMsg, eff0 ++ [.exec args])
          | some line =>
            (.ok { r with status := 1 },
             eff0 ++ [.exec args,
               .print ("Failed to rebase\n" ++ (if r.verbose then line else ""))])

/-- Runner::get_repo_file. parsed is the oracle for
repo_file::parse_repo_file (fatal parse failures happen inside the external
parser). The unwrap of the required repo_file_path is modelled faithfully. -/
def Runner.get_repo_file (r : Runner) (parsed : RepoFile) :
    Outcome Runner × List Effect :=
  match r.repo_file_path with
  | none => (.panicked unwrapNoneMsg, [])
  | some repo_file_name =>
    (.ok { r with repo_file := parsed },
     if r.verbose then [.print (r.log_p ++ "got repo file: " ++ repo_file_name)] else [])

/-- Runner::save_current_dir. cwd is the oracle for env::current_dir. -/
def Runner.save_current_dir (r : Runner) (cwd : Option String) :
    Outcome Runner × List Effect :=
  match cwd with
  | none => (.panicked "Failed to find your current directory. Cannot proceed", [])
  | some d =>
    (.ok { r with current_dir := d },
     if r.verbose then
       [.print (r.log_p ++ "saving current dir to return to later: " ++ d)]
     else [])

/-- Runner::get_repository_from_current_dir. repo_path is the oracle for
git_helpers::get_repository_and_root_directory (which aborts internally on
failure, outside this code). -/
def Runner.get_repository_from_current_dir (r : Runner) (repo_path : String) :
    Outcome Runner × List Effect :=
  (.ok { r with repo := some (), repo_root_dir := repo_path },
   if r.verbose then [.print (r.log_p ++ "found repo path: " ++ repo_path)] else [])

/-- Runner::change_to_repo_root. chdir_ok is the oracle for
changed_to_repo_root (env::set_current_dir succeeding). -/
def Runner.change_to_repo_root (r : Runner) (chdir_ok : Bool) :
    Outcome Runner × List Effect :=
  if r.dry_run then (.ok r, [.print ("cd " ++ r.repo_root_dir)])
  else if !chdir_ok then
    (.panicked ("Failed to change to repository root: " ++ r.repo_root_dir),
     [.chdir r.repo_root_dir])
  else
    (.ok r, [.chdir r.repo_root_dir] ++
      (if r.verbose then
        [.print (r.log_p ++ "changed to repository root " ++ r.repo_root_dir)]
      else []))

/-- Runner::verify_dependencies. git_ok and filter_repo_ok are the oracles
for exec_helpers::executed_successfully on the two probe invocations. -/
def Runner.verify_dependencies (r : Runner) (git_ok filter_repo_ok : Bool) :
    Outcome Runner × List Effect :=
  if !git_ok then
    (.panicked "Failed to run. Missing dependency 'git'",
     [.exec ["git", "--version"]])
  else if !filter_repo_ok then
    (.panicked "Failed to run. Missing dependency 'git-filter-repo'",
     [.exec ["git", "--version"], .exec ["git", "filter-repo", "--version"]])
  else
    (.ok r, [.exec ["git", "--version"], .exec ["git", "filter-repo", "--version"]])

/-- Runner::run_filter. -/
def Runner.run_filter (r : Runner) (arg_vec : List String) (verbose_log : String)
    (exec : List String → ExecResult) : Outcome Runner × List Effect :=
  if r.dry_run then (.ok r, [.print (joinSpace arg_vec)])
  else
    let eff0 : List Effect := if r.verbose then [.print verbose_log] else []
    match exec arg_vec with
    | .err e =>
      (.panicked ("Failed to execute: \"" ++ joinSpace arg_vec ++ "\"\n" ++ e),
       eff0 ++ [.exec arg_vec])
    | .ok o =>
      if o.status = 0 then (.ok r, eff0 ++ [.exec arg_vec])
      else
        (.panicked ("Failed to execute: \"" ++ joinSpace arg_vec ++ "\"\n" ++ o.stderr),
         eff0 ++ [.exec arg_vec])

/-- Runner::filter_include. -/
def Runner.filter_include (r : Runner) (exec : List String → ExecResult) :
    Outcome Runner × List Effect :=
  match r.include_arg_str with
  | none => (.ok r, [])
  | some include_arg_s =>
    match r.output_branch with
    | none => (.panicked unwrapNoneMsg, [])
    | some output_branch_name =>
      r.run_filter (generate_filter_arg_vec include_arg_s output_branch_name)
        "Filtering include" exec

/-- Runner::filter_include_as. -/
def Runner.filter_include_as (r : Runner) (exec : List String → ExecResult) :
    Outcome Runner × List Effect :=
  match r.include_as_arg_str with
  | none => (.ok r, [])
  | some include_as_arg_s =>
    match r.output_branch with
    | none => (.panicked unwrapNoneMsg, [])
    | some output_branch_name =>
      r.run_filter (generate_filter_arg_vec include_as_arg_s output_branch_name)
        "Filtering include_as" exec

/-- Runner::filter_exclude. -/
def Runner.filter_exclude (r : Runner) (exec : List String → ExecResult) :
    Outcome Runner × List Effect :=
  match r.exclude_arg_str with
  | none => (.ok r, [])
  | some exclude_arg_s =>
    match r.output_branch with
    | none => (.panicked unwrapNoneMsg, [])
    | some output_branch_name =>
      r.run_filter (generate_filter_arg_vec exclude_arg_s output_branch_name)
        "Filtering exclude" exec

/-! ## Concrete states used by the witnesses and counterexamples -/

/-- A Runner freshly constructed in real (non-dry-run) mode. -/
def baseRunner : Runner := Runner.new false false false false none (some "repo_file.txt")

/-- A Runner freshly constructed with the dry-run flag. -/
def dryRunner : Runner := Runner.new true false false false none (some "repo_file.txt")

/-- A dry-run Runner after repository discovery, with neither an input
branch nor a remote_repo in its repo file. -/
def bothNoneDryRunner : Runner := { dryRunner with repo := some () }

/-- A process-executor oracle whose every invocation succeeds with empty
output. -/
def cleanExec : List String → ExecResult :=
  fun _ => .ok { status := 0, stdout := "", stderr := "" }
/-- Modelled from the spec: the transformation claim C6 ascribes to the
rebase stage — strip only a leading "refs/heads/" prefix from the captured
ref and leave the rest of the ref string unchanged. -/
def stripLeadingRefsHeads (s : String) : String :=
  if "refs/heads/".data.isPrefixOf s.data then ⟨s.data.drop "refs/heads/".data.length⟩
  else s

/-! ## Claims about the pure helpers -/

/-- Claim C3: for every rule array and boolean allow_single, include_var_valid
returns true on even lengths at least 2 regardless of allow_single, returns
allow_single itself on length 1, and returns false on length 0 and on odd
lengths at least 3. -/
theorem C3_include_var_valid_cases (var : List String) (can_be_single : Bool) :
    (var.length % 2 = 0 → 2 ≤ var.length → include_var_valid var can_be_single = true)
    ∧ (var.length = 1 → include_var_valid var can_be_single = can_be_single)
    ∧ (var.length = 0 → include_var_valid var can_be_single = false)
    ∧ (var.length % 2 = 1 → 3 ≤ var.length → include_var_valid var can_be_single = false) := by
  simp only [include_var_valid]
  refine ⟨?_, ?_, ?_, ?_⟩ <;> intro h1
  · intro h2
    split_ifs with ha hb
    · rfl
    · rfl
    · exact absurd ⟨by omega, h1⟩ hb
  · split_ifs with ha hb
    · exact ha.2.symm
    · omega
    · cases can_be_single
      · rfl
      · exact absurd ⟨h1, rfl⟩ ha
  · split_ifs with ha hb
    · omega
    · omega
    · rfl
  · intro h2
    split_ifs with ha hb
    · omega
    · omega
    · rfl

/-- Witness for C3 at concrete inputs. -/
theorem C3_witness :
    include_var_valid ["a", "b"] false = true ∧ include_var_valid ["a"] false = false :=
  ⟨(C3_include_var_valid_cases ["a", "b"] false).1 (by decide) (by decide),
   (C3_include_var_valid_cases ["a"] false).2.1 (by decide)⟩

/-- Claim C4: generate_filter_arg_vec always produces the engine name first
("git" "filter-repo"), then the raw arguments verbatim and in order with no
reordering or deduplication, then the trailer: the branch-restriction flag
"--refs", the branch name exactly once immediately before the force flag
"--force", which is last. -/
theorem C4_generate_filter_arg_vec_shape (args : List String) (output_branch : String) :
    generate_filter_arg_vec args output_branch =
      ["git", "filter-repo"] ++ args ++ ["--refs", output_branch, "--force"] := by
  simp [generate_filter_arg_vec]

/-- Claim C9: on a platform whose native separator is the forward slash,
try_get_repo_name_from_remote_repo maps the url without a dot to "reponame"
and the url with the .git suffix to "reponame" (everything from the first
dot after the last separator stripped). -/
theorem C9_repo_name_examples :
    try_get_repo_name_from_remote_repo '/' "https://website.com/reponame" = some "reponame"
    ∧ try_get_repo_name_from_remote_repo '/' "https://website.com/reponame.git" = some "reponame" := by
  constructor <;> decide

/-- Counterexample for claim C5 as stated: the locator ".\\.git" is a
recognized remote descriptor (it starts with a dot) that contains the
alternate separator (backslash, on a platform whose native separator is the
forward slash), and native-separator extraction yields the empty string; yet
the function does not succeed: the fallback extraction truncates ".git" at
its first dot to the empty string, so the function terminates fatally. -/
theorem C5_counterexample :
    is_valid_remote_repo ".\\.git" = true
    ∧ strContainsChar ".\\.git" '\\' = true
    ∧ try_get_repo_name_with_slash_type ".\\.git" '/' = ""
    ∧ try_get_repo_name_from_remote_repo '/' ".\\.git" = none := by
  decide

/-- Any extraction on a locator that is not a recognized remote descriptor
yields the empty name. -/
theorem invalid_descriptor_extracts_empty (remote : String) (slash : Char)
    (h : is_valid_remote_repo remote = false) :
    try_get_repo_name_with_slash_type remote slash = "" := by
  unfold try_get_repo_name_with_slash_type
  rw [h]
  simp [strEndsWithChar, strContainsChar, strPop, get_string_after_last_slash,
    get_string_before_first_dot, afterLastSlashChars, beforeFirstDotChars]

/-- Claim C5 (amended): when extraction with the native separator yields an
empty string, the function retries with the other separator and succeeds
exactly when that alternate extraction yields a non-empty name (being a
recognized remote descriptor containing the alternate separator is necessary
but not sufficient: the segment after the last alternate separator must also
be non-empty before its first dot); and every input that is not a recognized
remote descriptor and contains no separator terminates fatally. -/
theorem C5_fallback_and_invalid_fatal (sep : Char) (remote : String) :
    (try_get_repo_name_with_slash_type remote sep = "" →
      try_get_repo_name_with_slash_type remote (if sep = '/' then '\\' else '/') ≠ "" →
      try_get_repo_name_from_remote_repo sep remote =
        some (try_get_repo_name_with_slash_type remote (if sep = '/' then '\\' else '/')))
    ∧ (is_valid_remote_repo remote = false →
        strContainsChar remote '/' = false →
        strContainsChar remote '\\' = false →
        try_get_repo_name_from_remote_repo sep remote = none) := by
  constructor
  · intro h1 h2
    simp only [try_get_repo_name_from_remote_repo]
    rw [h1]
    simp [h2]
  · intro hval _ _
    simp only [try_get_repo_name_from_remote_repo]
    rw [invalid_descriptor_extracts_empty remote sep hval,
      invalid_descriptor_extracts_empty remote (if sep = '/' then '\\' else '/') hval]
    simp

/-- Witness for C5 at concrete inputs: the fallback succeeds on a locator
written with the non-native separator, and an unrecognized separator-free
input fails fatally. -/
theorem C5_witness :
    try_get_repo_name_from_remote_repo '/' ".\\Desktop\\reponame" = some "reponame"
    ∧ try_get_repo_name_from_remote_repo '/' "reponame" = none := by
  constructor
  · have h := (C5_fallback_and_invalid_fatal '/' ".\\Desktop\\reponame").1 (by decide) (by decide)
    rw [h]
    decide
  · exact (C5_fallback_and_invalid_fatal '/' "reponame").2 (by decide) (by decide) (by decide)


/-! ## Status preservation of the pipeline stages -/

theorem save_current_ref_preserves_status (r : Runner) (cur : Option String) (r' : Runner)
    (h : (r.save_current_ref cur).1 = .ok r') : r'.status = r.status := by
  simp only [Runner.save_current_ref] at h
  injection h with h2
  subst h2
  rfl

theorem make_and_checkout_orphan_branch_preserves_status (r : Runner) (name : String)
    (ok1 ok2 : Bool) (r' : Runner)
    (h : (r.make_and_checkout_orphan_branch name ok1 ok2).1 = .ok r') :
    r'.status = r.status := by
  simp only [Runner.make_and_checkout_orphan_branch] at h
  repeat' split at h
  all_goals first
    | (injection h with h2; subst h2; rfl)
    | injection h

theorem safe_to_proceed_preserves_status (r : Runner) (exec : List String → ExecResult)
    (r' : Runner) (h : (r.safe_to_proceed exec).1 = .ok r') : r'.status = r.status := by
  simp only [Runner.safe_to_proceed] at h
  repeat' split at h
  all_goals first
    | (injection h with h2; subst h2; rfl)
    | injection h

theorem populate_preserves_status (r : Runner) (r' : Runner)
    (h : (r.populate_empty_branch_with_remote_commits).1 = .ok r') :
    r'.status = r.status := by
  simp only [Runner.populate_empty_branch_with_remote_commits] at h
  repeat' split at h
  all_goals first
    | (injection h with h2; subst h2; rfl)
    | injection h

theorem get_repo_file_preserves_status (r : Runner) (parsed : RepoFile) (r' : Runner)
    (h : (r.get_repo_file parsed).1 = .ok r') : r'.status = r.status := by
  simp only [Runner.get_repo_file] at h
  repeat' split at h
  all_goals first
    | (injection h with h2; subst h2; rfl)
    | injection h

theorem save_current_dir_preserves_status (r : Runner) (cwd : Option String) (r' : Runner)
    (h : (r.save_current_dir cwd).1 = .ok r') : r'.status = r.status := by
  simp only [Runner.save_current_dir] at h
  repeat' split at h
  all_goals first
    | (injection h with h2; subst h2; rfl)
    | injection h

theorem get_repository_preserves_status (r : Runner) (repo_path : String) (r' : Runner)
    (h : (r.get_repository_from_current_dir repo_path).1 = .ok r') :
    r'.status = r.status := by
  simp only [Runner.get_repository_from_current_dir] at h
  injection h with h2
  subst h2
  rfl

theorem change_to_repo_root_preserves_status (r : Runner) (chdir_ok : Bool) (r' : Runner)
    (h : (r.change_to_repo_root chdir_ok).1 = .ok r') : r'.status = r.status := by
  simp only [Runner.change_to_repo_root] at h
  repeat' split at h
  all_goals first
    | (injection h with h2; subst h2; rfl)
    | injection h

theorem verify_dependencies_preserves_status (r : Runner) (g f : Bool) (r' : Runner)
    (h : (r.verify_dependencies g f).1 = .ok r') : r'.status = r.status := by
  simp only [Runner.verify_dependencies] at h
  repeat' split at h
  all_goals first
    | (injection h with h2; subst h2; rfl)
    | injection h

theorem run_filter_preserves_status (r : Runner) (arg_vec : List String)
    (verbose_log : String) (exec : List String → ExecResult) (r' : Runner)
    (h : (r.run_filter arg_vec verbose_log exec).1 = .ok r') : r'.status = r.status := by
  simp only [Runner.run_filter] at h
  repeat' split at h
  all_goals first
    | (injection h with h2; subst h2; rfl)
    | injection h

theorem filter_include_preserves_status (r : Runner) (exec : List String → ExecResult)
    (r' : Runner) (h : (r.filter_include exec).1 = .ok r') : r'.status = r.status := by
  simp only [Runner.filter_include] at h
  repeat' split at h
  all_goals first
    | (injection h with h2; subst h2; rfl)
    | injection h
    | exact run_filter_preserves_status _ _ _ _ _ h

theorem filter_include_as_preserves_status (r : Runner) (exec : List String → ExecResult)
    (r' : Runner) (h : (r.filter_include_as exec).1 = .ok r') : r'.status = r.status := by
  simp only [Runner.filter_include_as] at h
  repeat' split at h
  all_goals first
    | (injection h with h2; subst h2; rfl)
    | injection h
    | exact run_filter_preserves_status _ _ _ _ _ h

theorem filter_exclude_preserves_status (r : Runner) (exec : List String → ExecResult)
    (r' : Runner) (h : (r.filter_exclude exec).1 = .ok r') : r'.status = r.status := by
  simp only [Runner.filter_exclude] at h
  repeat' split at h
  all_goals first
    | (injection h with h2; subst h2; rfl)
    | injection h
    | exact run_filter_preserves_status _ _ _ _ _ h

/-! ## Rebase outcome lemmas -/

theorem rebase_success_returns_unchanged (r : Runner) (exec : List String → ExecResult)
    (o : ExecOutput) (ref : String)
    (href : r.repo_original_ref = some ref) (hdry : r.dry_run = false)
    (hexec : exec ["git", "rebase", strReplaceAll ref "refs/heads/" ""] = .ok o)
    (hst : o.status = 0) :
    (r.rebase exec).1 = .ok r := by
  simp only [Runner.rebase]
  rw [href]
  simp only [hdry]
  rw [hexec]
  simp [hst]

theorem rebase_exec_err_sets_status_one (r : Runner) (exec : List String → ExecResult)
    (e ref : String)
    (href : r.repo_original_ref = some ref) (hdry : r.dry_run = false)
    (hexec : exec ["git", "rebase", strReplaceAll ref "refs/heads/" ""] = .err e) :
    (r.rebase exec).1 = .ok { r with status := 1 } := by
  simp only [Runner.rebase]
  rw [href]
  simp only [hdry]
  rw [hexec]
  simp

/-! ## Claims about the Runner pipeline -/

/-- Claim C1: the spec says a failed reconciliation rebase sets the
terminal status non-zero, reports, and returns the Runner normally without
aborting. The code instead panics (aborting the process) whenever the
failed rebase command produced empty stderr, because it unwraps the first
stderr line: here the rebase subprocess exits with status 128 and empty
stderr, and the stage's outcome is a panic, not a normal return. -/
theorem C1_rebase_failure_empty_stderr_panics :
    ({ baseRunner with repo_original_ref := some "refs/heads/master" } : Runner).rebase
      (fun _ => .ok { status := 128, stdout := "", stderr := "" }) =
    (.panicked unwrapNoneMsg, [.exec ["git", "rebase", "master"]]) := by
  decide

/-- Counterexample for claim C2 as stated: a dry-run Runner whose repo file
has no remote_repo and no input branch: the history-population stage does
not print the equivalent command and return — it panics (unwrapping the
absent remote_repo) even in dry-run mode, printing nothing. -/
theorem C2_counterexample :
    bothNoneDryRunner.dry_run = true
    ∧ bothNoneDryRunner.populate_empty_branch_with_remote_commits =
        (.panicked unwrapNoneMsg, []) := by
  decide

/-- Claim C2 (amended): for every Runner in dry-run mode, each mutating
stage prints the equivalent shell command line(s) and returns the Runner
unchanged with no mutating git or subprocess effect — provided the stage's
own inputs are present (for rebase: a captured original ref; for history
population: the repository handle, and the input branch or the repo file's
remote_repo — when both are absent the stage panics, without mutating,
even in dry-run). -/
theorem C2_dry_run_prints_only (r : Runner) (hdry : r.dry_run = true) :
    (∀ name ok1 ok2, r.make_and_checkout_orphan_branch name ok1 ok2 =
      (.ok r, [.print ("git checkout --orphan " ++ name),
               .print "git rm -rf . > /dev/null"]))
    ∧ (∀ chdir_ok, r.change_to_repo_root chdir_ok =
        (.ok r, [.print ("cd " ++ r.repo_root_dir)]))
    ∧ (∀ args vlog exec, r.run_filter args vlog exec =
        (.ok r, [.print (joinSpace args)]))
    ∧ (∀ exec ref, r.repo_original_ref = some ref → r.rebase exec = (.ok r,
        (if r.verbose then
          [Effect.print ("rebasing onto " ++ strReplaceAll ref "refs/heads/" "")]
        else [])
        ++ [Effect.print ("git rebase " ++ strReplaceAll ref "refs/heads/" "")]))
    ∧ (r.repo = some () →
        (∀ b, r.input_branch = some b →
          r.populate_empty_branch_with_remote_commits =
            (.ok r, [.print ("git merge " ++ b)]))
        ∧ (∀ rr, r.input_branch = none → r.repo_file.remote_repo = some rr →
          r.populate_empty_branch_with_remote_commits =
            (.ok r, [.print ("git pull " ++ rr)]))) := by
  refine ⟨?_, ?_, ?_, ?_, ?_⟩
  · intro name ok1 ok2
    simp [Runner.make_and_checkout_orphan_branch, hdry]
  · intro chdir_ok
    simp [Runner.change_to_repo_root, hdry]
  · intro args vlog exec
    simp [Runner.run_filter, hdry]
  · intro exec ref href
    simp only [Runner.rebase]
    rw [href]
    simp [hdry]
  · intro hrepo
    constructor
    · intro b hb
      simp only [Runner.populate_empty_branch_with_remote_commits]
      rw [hrepo, hdry, hb]
    · intro rr hb hrr
      simp only [Runner.populate_empty_branch_with_remote_commits]
      rw [hrepo, hdry, hb, hrr]

/-- Witness for C2: a dry-run filter pass only prints the joined command
line and returns the Runner unchanged. -/
theorem C2_witness :
    dryRunner.run_filter ["git", "filter-repo", "--force"] "log" cleanExec =
      (.ok dryRunner, [.print "git filter-repo --force"]) := by
  rw [(C2_dry_run_prints_only dryRunner rfl).2.2.1 ["git", "filter-repo", "--force"]
    "log" cleanExec]
  decide

/-- Counterexample for claim C6 as stated: for the captured ref
"refs/heads/refs/heads/feature" (branch named "refs/heads/feature"), the
claim prescribes upstream "refs/heads/feature" (only the leading prefix
stripped, the rest unchanged), but the code's replace removes every
occurrence and the dry-run print shows upstream "feature". -/
theorem C6_counterexample :
    (({ dryRunner with repo_original_ref := some "refs/heads/refs/heads/feature" } : Runner).rebase
        cleanExec).2 = [.print "git rebase feature"]
    ∧ stripLeadingRefsHeads "refs/heads/refs/heads/feature" = "refs/heads/feature"
    ∧ ("feature" : String) ≠ "refs/heads/feature" := by
  decide

/-- Claim C6 (amended): for every captured original ref, the upstream
argument used by the rebase stage (printed in dry-run, passed to the rebase
command otherwise) equals the captured ref string with every non-overlapping
occurrence of the substring "refs/heads/" removed (scanning left to right),
not only a leading prefix. -/
theorem C6_upstream_strips_all_occurrences (r : Runner) (exec : List String → ExecResult)
    (ref : String) (href : r.repo_original_ref = some ref) :
    (r.dry_run = true → (r.rebase exec).2 =
      (if r.verbose then
        [Effect.print ("rebasing onto " ++ strReplaceAll ref "refs/heads/" "")]
      else [])
      ++ [Effect.print ("git rebase " ++ strReplaceAll ref "refs/heads/" "")])
    ∧ (r.dry_run = false → ∃ rest, (r.rebase exec).2 =
      (if r.verbose then
        [Effect.print ("rebasing onto " ++ strReplaceAll ref "refs/heads/" "")]
      else [])
      ++ [Effect.exec ["git", "rebase", strReplaceAll ref "refs/heads/" ""]] ++ rest) := by
  constructor
  · intro hdry
    simp only [Runner.rebase]
    rw [href]
    simp [hdry]
  · intro hdry
    simp only [Runner.rebase]
    rw [href]
    simp only [hdry]
    cases hexec : exec ["git", "rebase", strReplaceAll ref "refs/heads/" ""] with
    | ok o =>
      by_cases hst : o.status = 0
      · exact ⟨[], by simp [hexec, hst]⟩
      · cases hl : linesNext o.stderr with
        | none => exact ⟨[], by simp [hexec, hst, hl]⟩
        | some line =>
          exact ⟨[Effect.print ("Failed to rebase\n" ++ (if r.verbose then line else ""))],
            by simp [hexec, hst, hl]⟩
    | err e =>
      exact ⟨[Effect.print ("Failed to rebase\n" ++ (if r.verbose then e else ""))],
        by simp [hexec]⟩

/-- Witness for C6: dry-run rebase of a ref with a single leading prefix
prints the stripped branch name. -/
theorem C6_witness :
    (({ dryRunner with repo_original_ref := some "refs/heads/master" } : Runner).rebase
      cleanExec).2 = [Effect.print "git rebase master"] := by
  rw [(C6_upstream_strips_all_occurrences
    { dryRunner with repo_original_ref := some "refs/heads/master" }
    cleanExec "refs/heads/master" rfl).1 rfl]
  decide

/-- Claim C7: when the modified-files query succeeds and reports at least
one modified tracked file, safe_to_proceed prints the user-facing message
and exits the whole process with status 1; when it succeeds with empty
output, safe_to_proceed returns the Runner unchanged. -/
theorem C7_safe_to_proceed_gate (r : Runner) (exec : List String → ExecResult)
    (o : ExecOutput)
    (hexec : exec ["git", "ls-files", "--modified"] = .ok o) (hst : o.status = 0) :
    (o.stdout ≠ "" → r.safe_to_proceed exec =
      (.exited 1, [.exec ["git", "ls-files", "--modified"],
        .print "You have modified changes. Please stash or commit your changes before running this command"]))
    ∧ (o.stdout = "" → r.safe_to_proceed exec =
        (.ok r, [.exec ["git", "ls-files", "--modified"]])) := by
  constructor
  · intro hne
    simp only [Runner.safe_to_proceed]
    rw [hexec]
    simp [hst, hne]
  · intro he
    simp only [Runner.safe_to_proceed]
    rw [hexec]
    simp [hst, he]

/-- Witness for C7: a clean working tree lets the stage return the Runner
unchanged. -/
theorem C7_witness :
    baseRunner.safe_to_proceed cleanExec =
      (.ok baseRunner, [.exec ["git", "ls-files", "--modified"]]) :=
  (C7_safe_to_proceed_gate baseRunner cleanExec
    { status := 0, stdout := "", stderr := "" } rfl rfl).2 rfl

/-- Claim C8: Runner::new sets the terminal status to 0; every pipeline
operation other than rebase, when it returns a Runner normally, returns it
with the status of its input; a successful rebase also preserves the
status, and a failed rebase (here: an execution-level error from the rebase
command) is the one operation that sets it non-zero (to 1). -/
theorem C8_status_invariant :
    (∀ d v rb tb ob fp, (Runner.new d v rb tb ob fp).status = 0)
    ∧ (∀ (r : Runner) (cur : Option String) (r' : Runner),
        (r.save_current_ref cur).1 = .ok r' → r'.status = r.status)
    ∧ (∀ (r : Runner) (name : String) (ok1 ok2 : Bool) (r' : Runner),
        (r.make_and_checkout_orphan_branch name ok1 ok2).1 = .ok r' → r'.status = r.status)
    ∧ (∀ (r : Runner) (exec : List String → ExecResult) (r' : Runner),
        (r.safe_to_proceed exec).1 = .ok r' → r'.status = r.status)
    ∧ (∀ (r : Runner) (r' : Runner),
        (r.populate_empty_branch_with_remote_commits).1 = .ok r' → r'.status = r.status)
    ∧ (∀ (r : Runner) (parsed : RepoFile) (r' : Runner),
        (r.get_repo_file parsed).1 = .ok r' → r'.status = r.status)
    ∧ (∀ (r : Runner) (cwd : Option String) (r' : Runner),
        (r.save_current_dir cwd).1 = .ok r' → r'.status = r.status)
    ∧ (∀ (r : Runner) (repo_path : String) (r' : Runner),
        (r.get_repository_from_current_dir repo_path).1 = .ok r' → r'.status = r.status)
    ∧ (∀ (r : Runner) (chdir_ok : Bool) (r' : Runner),
        (r.change_to_repo_root chdir_ok).1 = .ok r' → r'.status = r.status)
    ∧ (∀ (r : Runner) (g f : Bool) (r' : Runner),
        (r.verify_dependencies g f).1 = .ok r' → r'.status = r.status)
    ∧ (∀ (r : Runner) (arg_vec : List String) (verbose_log : String)
        (exec : List String → ExecResult) (r' : Runner),
        (r.run_filter arg_vec verbose_log exec).1 = .ok r' → r'.status = r.status)
    ∧ (∀ (r : Runner) (exec : List String → ExecResult) (r' : Runner),
        (r.filter_include exec).1 = .ok r' → r'.status = r.status)
    ∧ (∀ (r : Runner) (exec : List String → ExecResult) (r' : Runner),
        (r.filter_include_as exec).1 = .ok r' → r'.status = r.status)
    ∧ (∀ (r : Runner) (exec : List String → ExecResult) (r' : Runner),
        (r.filter_exclude exec).1 = .ok r' → r'.status = r.status)
    ∧ (∀ (r : Runner) (exec : List String → ExecResult) (o : ExecOutput) (ref : String),
        r.repo_original_ref = some ref → r.dry_run = false →
        exec ["git", "rebase", strReplaceAll ref "refs/heads/" ""] = .ok o → o.status = 0 →
        (r.rebase exec).1 = .ok r)
    ∧ (∀ (r : Runner) (exec : List String → ExecResult) (e ref : String),
        r.repo_original_ref = some ref → r.dry_run = false →
        exec ["git", "rebase", strReplaceAll ref "refs/heads/" ""] = .err e →
        (r.rebase exec).1 = .ok { r with status := 1 }) :=
  ⟨fun _ _ _ _ _ _ => rfl,
   save_current_ref_preserves_status,
   make_and_checkout_orphan_branch_preserves_status,
   safe_to_proceed_preserves_status,
   populate_preserves_status,
   get_repo_file_preserves_status,
   save_current_dir_preserves_status,
   get_repository_preserves_status,
   change_to_repo_root_preserves_status,
   verify_dependencies_preserves_status,
   run_filter_preserves_status,
   filter_include_preserves_status,
   filter_include_as_preserves_status,
   filter_exclude_preserves_status,
   rebase_success_returns_unchanged,
   rebase_exec_err_sets_status_one⟩

/-- Witness for C8: a fresh dry-run Runner has status 0, and
save_current_ref on a concrete Runner preserves the status. -/
theorem C8_witness :
    (Runner.new true false false false none none).status = 0
    ∧ ({ baseRunner with repo_original_ref := none } : Runner).status = baseRunner.status :=
  ⟨C8_status_invariant.1 true false false false none none,
   C8_status_invariant.2.1 baseRunner (some "refs/heads/master")
     { baseRunner with repo_original_ref := none } rfl⟩

/-- Claim C10: populate_empty_branch_with_remote_commits takes the merge
path exactly when input_branch is present and the pull path exactly when it
is absent; when input_branch and remote_repo are both absent it panics (in
dry-run and real mode alike); it returns normally only when at least one of
input_branch and remote_repo is present. -/
theorem C10_populate_branch_choice (r : Runner) :
    (∀ b, r.repo = some () → r.input_branch = some b →
      r.populate_empty_branch_with_remote_commits =
        (if r.dry_run then ((.ok r : Outcome Runner), [Effect.print ("git merge " ++ b)])
         else (.ok r, [Effect.print (r.log_p ++ "Merging " ++ b), .gitMergeBranches b])))
    ∧ (∀ rr, r.repo = some () → r.input_branch = none → r.repo_file.remote_repo = some rr →
      r.populate_empty_branch_with_remote_commits =
        (if r.dry_run then ((.ok r : Outcome Runner), [Effect.print ("git pull " ++ rr)])
         else (.ok r, [Effect.print (r.log_p ++ "Pulling from " ++ rr ++ " " ++
             (r.repo_file.remote_branch.getD "")),
           .gitPull rr r.repo_file.remote_branch])))
    ∧ (r.input_branch = none → r.repo_file.remote_repo = none →
        ∃ msg, (r.populate_empty_branch_with_remote_commits).1 = .panicked msg)
    ∧ (∀ r', (r.populate_empty_branch_with_remote_commits).1 = .ok r' →
        r.input_branch.isSome = true ∨ r.repo_file.remote_repo.isSome = true) := by
  refine ⟨?_, ?_, ?_, ?_⟩
  · intro b hrepo hb
    simp only [Runner.populate_empty_branch_with_remote_commits]
    rw [hrepo, hb]
    cases hd : r.dry_run <;> simp [hd]
  · intro rr hrepo hb hrr
    simp only [Runner.populate_empty_branch_with_remote_commits]
    rw [hrepo, hb, hrr]
    cases hd : r.dry_run <;> simp [hd]
  · intro hb hrr
    cases hrepo : r.repo with
    | none =>
      exact ⟨"Failed to find repo?",
        by simp [Runner.populate_empty_branch_with_remote_commits, hrepo]⟩
    | some u =>
      cases u
      refine ⟨unwrapNoneMsg, ?_⟩
      simp only [Runner.populate_empty_branch_with_remote_commits]
      rw [hrepo, hb, hrr]
      cases hd : r.dry_run <;> simp [hd]
  · intro r' h
    cases hb : r.input_branch with
    | some b => left; simp [hb]
    | none =>
      cases hrr : r.repo_file.remote_repo with
      | some rr => right; simp [hrr]
      | none =>
        exfalso
        cases hrepo : r.repo with
        | none =>
          simp [Runner.populate_empty_branch_with_remote_commits, hrepo] at h
        | some u =>
          cases u
          rw [Runner.populate_empty_branch_with_remote_commits] at h
          rw [hrepo, hb, hrr] at h
          cases hd : r.dry_run <;> rw [hd] at h <;> simp at h

/-- Witness for C10: a Runner with an input branch takes the merge path. -/
theorem C10_witness :
    ({ baseRunner with repo := some (), input_branch := some "feature" } : Runner).populate_empty_branch_with_remote_commits
      = (.ok { baseRunner with repo := some (), input_branch := some "feature" },
         [.print "Merging feature", .gitMergeBranches "feature"]) := by
  rw [(C10_populate_branch_choice
    { baseRunner with repo := some (), input_branch := some "feature" }).1 "feature" rfl rfl]
  decide
